import Mathlib

/-!
Verification of the single-file DDNS updater (`cfddns.py`).

The Python program is shallowly embedded: Python strings are `List Char`
(`PyStr`), exceptions become an explicit `PyErr` error type threaded through
`Except`, the network is an explicit environment (a response oracle plus a
trace of provider calls actually issued), and the single state file is an
`Option PyStr` (absent or its full text).  Python's `datetime` library is
modelled by a serialization of a seconds-count that is exact on the
properties the program relies on: `isoformat`/`fromisoformat` are inverse,
and the rendered timestamp consists only of digit characters (so it contains
no comma and no whitespace, like a real ISO-8601 rendering without commas).
-/

abbrev PyStr := List Char

deriving instance DecidableEq for Except

/-- Python `str.strip()` whitespace test (the ASCII whitespace characters). -/
def isPySpace (c : Char) : Bool :=
  c == ' ' || c == '\t' || c == '\n' || c == '\r' || c == '\x0b' || c == '\x0c'

/-- Python `s.strip()`: drop whitespace from both ends. -/
def pyStrip (s : PyStr) : PyStr :=
  ((s.dropWhile isPySpace).reverse.dropWhile isPySpace).reverse

/-- Python `s.split(',')`.  `pySplitComma [] = [[]]` mirrors `''.split(',') == ['']`. -/
def pySplitComma : PyStr → List PyStr
  | [] => [[]]
  | c :: rest =>
    match pySplitComma rest with
    | [] => [[c]]
    | w :: ws => if c = ',' then [] :: w :: ws else (c :: w) :: ws

/-- Digit character test (`'0'` to `'9'`). -/
def isDigitChar (c : Char) : Bool := decide (48 ≤ c.toNat ∧ c.toNat ≤ 57)

/-- Render one decimal digit as a character. -/
def digitChar (d : Nat) : Char :=
  if d = 0 then '0' else if d = 1 then '1' else if d = 2 then '2'
  else if d = 3 then '3' else if d = 4 then '4' else if d = 5 then '5'
  else if d = 6 then '6' else if d = 7 then '7' else if d = 8 then '8' else '9'

/-- Value of one decimal digit character. -/
def charToDigit (c : Char) : Nat := c.toNat - 48

/-- Little-endian decimal digits of `n`, with explicit fuel (structural recursion). -/
def isoDigitsAux : Nat → Nat → List Nat
  | 0, _ => []
  | fuel + 1, n => if n = 0 then [] else n % 10 :: isoDigitsAux fuel (n / 10)

/-- Little-endian decimal digits of `n`. -/
def isoDigits (n : Nat) : List Nat := isoDigitsAux n n

/-- Value of a little-endian decimal digit list. -/
def fromDigits : List Nat → Nat
  | [] => 0
  | d :: ds => d + 10 * fromDigits ds

/-- Modelled external library: `datetime.isoformat()` on a time value (a
seconds-count `Nat`), rendered as its decimal digits.  The properties the
program relies on — injectivity with `fromisoformat` as inverse, and a
comma-free whitespace-free non-empty rendering — hold of the real ISO-8601
rendering and are proved of this model. -/
def isoformat (t : Nat) : PyStr :=
  if t = 0 then ['0'] else ((isoDigits t).map digitChar).reverse

/-- Modelled external library: `datetime.fromisoformat`, the partial inverse of
`isoformat`; any string that is not a valid rendering raises `ValueError`
(modelled as `none`). -/
def fromisoformat (s : PyStr) : Option Nat :=
  if s.isEmpty || !(s.all isDigitChar) then none
  else some (fromDigits (s.reverse.map charToDigit))

/-- Python exceptions the program can raise. -/
inductive PyErr where
  | keyError (key : PyStr)
  | attributeError (attr : PyStr)
  | valueError
  | exception (msg : PyStr)
deriving DecidableEq

/-- An HTTP response: status code and body text. -/
structure HttpResp where
  status : Nat
  text : PyStr
deriving DecidableEq

/-- One DNS record as returned by the provider's zone listing
(`response.json()['result']` entries, the fields the program reads). -/
structure DNSRecord where
  id : PyStr
  type : PyStr
  name : PyStr
deriving DecidableEq

/-- The provider's behaviour for one run: the response to the zone-listing
`GET` (with its parsed record list, used when the status is 200) and the
response to the batch `POST`. -/
structure ProviderEnv where
  listResp : HttpResp
  listRecords : List DNSRecord
  batchResp : HttpResp
deriving DecidableEq

/-- A provider API call actually issued, recorded in order. -/
inductive ProviderCall where
  | listRecords
  | batchUpdate (patches : List (PyStr × PyStr))
deriving DecidableEq

/-- One line printed to stdout, kept structured: `log_change` prints an INFO
line with the current time, both IPs and the elapsed time; `log_error` prints
an ERROR line with the current time and the exception. -/
inductive LogLine where
  | change (now : Nat) (current_ip last_ip : PyStr) (et : Option Int)
  | error (now : Nat) (e : PyErr)
deriving DecidableEq

def LogLine.isError : LogLine → Bool
  | .error _ _ => true
  | .change _ _ _ _ => false

/-- The parsed `config.json` contents: each key present or absent. -/
structure Config where
  api_token : Option PyStr
  zone_id : Option PyStr
  domains : Option (List PyStr)
deriving DecidableEq

/-- The constructed updater (`CloudflareDDNS.__init__`'s fields; the cache-file
path and API base are constants and carry no information). -/
structure CloudflareDDNS where
  api_token : PyStr
  zone_id : PyStr
  domains : List PyStr
deriving DecidableEq

/-- `CloudflareDDNS.__init__`: `config['...']` raises `KeyError` on a missing
key; an empty (falsy) value raises the corresponding `Exception`.  The
constructor touches no network environment (its type has none). -/
def CloudflareDDNS.init (config : Config) : Except PyErr CloudflareDDNS :=
  match config.api_token with
  | none => .error (.keyError (("api_token").data))
  | some api_token =>
    if api_token = [] then .error (.exception (("API token is required").data))
    else
      match config.zone_id with
      | none => .error (.keyError (("zone_id").data))
      | some zone_id =>
        if zone_id = [] then .error (.exception (("Zone ID is required").data))
        else
          match config.domains with
          | none => .error (.keyError (("domains").data))
          | some domains =>
            if domains = [] then .error (.exception (("At least one domain is required").data))
            else .ok ⟨api_token, zone_id, domains⟩

/-- The fixed ordered list of IP-echo endpoints. -/
def ip_services : List PyStr :=
  [("https://ifconfig.me/ip").data, ("https://api.ipify.org").data, ("https://icanhazip.com").data]

/-- Whether a `requests.get` outcome (`none` = an exception was raised) is the
success the code accepts: a response with status code 200. -/
def reqSucceeds : Option HttpResp → Bool
  | some r => r.status == 200
  | none => false

/-- Body text of a `requests.get` outcome (empty for an exception). -/
def respText : Option HttpResp → PyStr
  | some r => r.text
  | none => []

/-- The loop body of `get_current_ip`: try each service in order; an exception
(`none`) is swallowed and the next service tried; a 200 response returns its
stripped body; any other status also falls through to the next service. -/
def tryServices (ipEnv : PyStr → Option HttpResp) : List PyStr → Option PyStr
  | [] => none
  | s :: rest =>
    match ipEnv s with
    | some r => if r.status = 200 then some (pyStrip r.text) else tryServices ipEnv rest
    | none => tryServices ipEnv rest

/-- `CloudflareDDNS.get_current_ip` (it reads no `self` state). -/
def get_current_ip (ipEnv : PyStr → Option HttpResp) : Option PyStr :=
  tryServices ipEnv ip_services

/-- `CloudflareDDNS.get_last_known_ip`: `file` is the cache file (`none` when
absent, raising `FileNotFoundError`, the one exception the code catches).
Unpacking `split(',')` into two names raises `ValueError` unless the list has
exactly two elements; `fromisoformat` raises `ValueError` on an unparsable
timestamp.  The elapsed time is `datetime.now() - last_changed`. -/
def get_last_known_ip (file : Option PyStr) (now : Nat) :
    Except PyErr (Option PyStr × Option Int) :=
  match file with
  | none => .ok (none, none)
  | some content =>
    match pySplitComma (pyStrip content) with
    | [last_ip, timestamp] =>
      match fromisoformat timestamp with
      | some t => .ok (some last_ip, some ((now : Int) - (t : Int)))
      | none => .error PyErr.valueError
    | _ => .error PyErr.valueError

/-- `CloudflareDDNS.save_current_ip`: the new cache-file content,
`f"{ip},{datetime.now().isoformat()}"`. -/
def save_current_ip (ip : PyStr) (now : Nat) : PyStr :=
  ip ++ ',' :: isoformat now

/-- Record ids collected by `update_dns_records`: records with `type == 'A'`
whose `name` is in the configured domains. -/
def matched_record_ids (records : List DNSRecord) (domains : List PyStr) : List PyStr :=
  (records.filter (fun r => decide (r.type = ("A").data ∧ r.name ∈ domains))).map (fun r => r.id)

/-- The `patches` payload of the batch request: one `{id, content}` entry per
matched record id, each with `content = new_ip`. -/
def batch_patches (records : List DNSRecord) (domains : List PyStr) (new_ip : PyStr) :
    List (PyStr × PyStr) :=
  (matched_record_ids records domains).map (fun rid => (rid, new_ip))

/-- `CloudflareDDNS.update_dns_records`.  Returns the result together with the
trace of provider calls issued.  On a non-200 zone listing it raises carrying
the response body.  When no record matches, the source line
`raise Exception(f"No A record found for {self.domain}")` evaluates
`self.domain` — an attribute that does not exist (the field is `domains`) —
so what is actually raised is an `AttributeError`, before the descriptive
message is ever built; this is embedded faithfully.  On a non-200 batch
response it raises carrying the response body. -/
def CloudflareDDNS.update_dns_records (self : CloudflareDDNS) (env : ProviderEnv)
    (new_ip : PyStr) : Except PyErr Bool × List ProviderCall :=
  if env.listResp.status ≠ 200 then
    (.error (.exception (("Failed to get DNS records: ").data ++ env.listResp.text)),
      [.listRecords])
  else if matched_record_ids env.listRecords self.domains = [] then
    (.error (.attributeError (("domain").data)), [.listRecords])
  else if env.batchResp.status ≠ 200 then
    (.error (.exception (("Failed to update DNS records: ").data ++ env.batchResp.text)),
      [.listRecords, .batchUpdate (batch_patches env.listRecords self.domains new_ip)])
  else
    (.ok true, [.listRecords, .batchUpdate (batch_patches env.listRecords self.domains new_ip)])

/-- `log_change`: prints nothing when `last_ip` is falsy (`None` or empty). -/
def log_change (current_ip : PyStr) (last_ip : Option PyStr) (et : Option Int) (now : Nat) :
    List LogLine :=
  match last_ip with
  | none => []
  | some l => if l = [] then [] else [LogLine.change now current_ip l et]

/-- The whole environment one `run` executes against. -/
structure RunEnv where
  ipEnv : PyStr → Option HttpResp
  provider : ProviderEnv
  file : Option PyStr
  now : Nat

/-- Observable outcome of one `run`: the cache-file state afterwards, the
provider calls issued, and the lines printed. -/
structure RunResult where
  file : Option PyStr
  calls : List ProviderCall
  logs : List LogLine
deriving DecidableEq

/-- `CloudflareDDNS.run`: the `try` block in order — detect the IP (a falsy
result, `None` or the empty string, raises "Could not determine current IP
address"), load the last known IP, and when they differ log the change, update
the provider, then save.  Every exception is caught by the single top-level
`except` and turned into one ERROR log line; the run itself always returns. -/
def CloudflareDDNS.run (self : CloudflareDDNS) (env : RunEnv) : RunResult :=
  match get_current_ip env.ipEnv with
  | some (c :: cs) =>
    match get_last_known_ip env.file env.now with
    | .error e => ⟨env.file, [], [.error env.now e]⟩
    | .ok (last_ip, et) =>
      if last_ip = some (c :: cs) then ⟨env.file, [], []⟩
      else
        match self.update_dns_records env.provider (c :: cs) with
        | (.error e, calls) =>
          ⟨env.file, calls, log_change (c :: cs) last_ip et env.now ++ [.error env.now e]⟩
        | (.ok _, calls) =>
          ⟨some (save_current_ip (c :: cs) env.now), calls,
            log_change (c :: cs) last_ip et env.now⟩
  | _ =>
    ⟨env.file, [],
      [.error env.now (.exception (("Could not determine current IP address").data))]⟩

/-- The `__main__` block: construct (uncaught — an exception here propagates
out of the process, which then exits with a failure status) and run. -/
def mainEntry (config : Config) (env : RunEnv) : Except PyErr RunResult :=
  match CloudflareDDNS.init config with
  | .error e => .error e
  | .ok d => .ok (d.run env)

/-- Whether an `Except` result is a success. -/
def isOkE {α : Type} : Except PyErr α → Bool
  | .ok _ => true
  | .error _ => false

/-- The spec's configuration validity condition, written from the spec's
words: all three of `api_token`, `zone_id`, `domains` present and non-empty. -/
def specValidConfig (config : Config) : Bool :=
  (match config.api_token with | some t => !t.isEmpty | none => false) &&
  (match config.zone_id with | some z => !z.isEmpty | none => false) &&
  (match config.domains with | some ds => !ds.isEmpty | none => false)

/-- State-file content the spec calls malformed: after stripping, splitting on
commas does not give exactly two fields, or the timestamp field is
unparsable. -/
def malformedContent (content : PyStr) : Bool :=
  match pySplitComma (pyStrip content) with
  | [_, ts] => (fromisoformat ts).isNone
  | _ => true

/-! ### String lemmas -/

lemma dropWhile_eq_self_of_head (p : Char → Bool) (l : PyStr)
    (h : l.head?.all (fun c => !p c) = true) : l.dropWhile p = l := by
  cases l with
  | nil => rfl
  | cons c t =>
    have hc : p c = false := by
      simp only [List.head?_cons, Option.all_some, Bool.not_eq_true'] at h
      exact h
    simp [List.dropWhile_cons, hc]

lemma pyStrip_eq_self (l : PyStr)
    (h1 : l.head?.all (fun c => !isPySpace c) = true)
    (h2 : l.reverse.head?.all (fun c => !isPySpace c) = true) : pyStrip l = l := by
  unfold pyStrip
  rw [dropWhile_eq_self_of_head _ _ h1, dropWhile_eq_self_of_head _ _ h2,
    List.reverse_reverse]

lemma pySplitComma_ne_nil (l : PyStr) : pySplitComma l ≠ [] := by
  induction l with
  | nil => simp [pySplitComma]
  | cons c rest ih =>
    unfold pySplitComma
    cases h : pySplitComma rest with
    | nil => simp
    | cons w ws => by_cases hc : c = ',' <;> simp [hc]

lemma pySplitComma_no_comma (l : PyStr) (h : ',' ∉ l) : pySplitComma l = [l] := by
  induction l with
  | nil => rfl
  | cons c rest ih =>
    have hc : ¬(c = ',') := fun e => h (by simp [e])
    have hr : ',' ∉ rest := fun m => h (by simp [m])
    unfold pySplitComma
    rw [ih hr]
    simp [hc]

lemma pySplitComma_append (a b : PyStr) (ha : ',' ∉ a) :
    pySplitComma (a ++ ',' :: b) = a :: pySplitComma b := by
  induction a with
  | nil =>
    simp only [List.nil_append]
    cases h : pySplitComma b with
    | nil => exact absurd h (pySplitComma_ne_nil b)
    | cons w ws =>
      have e1 : pySplitComma (',' :: b) =
          match pySplitComma b with
          | [] => [[',']]
          | w :: ws => if (',' : Char) = ',' then [] :: w :: ws else (',' :: w) :: ws := rfl
      rw [e1, h]
      simp
  | cons c a ih =>
    have hc : ¬(c = ',') := fun e => ha (by simp [e])
    have ha' : ',' ∉ a := fun m => ha (by simp [m])
    have e1 : pySplitComma (c :: (a ++ ',' :: b)) =
        match pySplitComma (a ++ ',' :: b) with
        | [] => [[c]]
        | w :: ws => if c = ',' then [] :: w :: ws else (c :: w) :: ws := rfl
    rw [List.cons_append, e1, ih ha']
    simp [hc]

/-! ### Timestamp-model lemmas -/

lemma isDigitChar_digitChar (d : Nat) : isDigitChar (digitChar d) = true := by
  unfold digitChar
  split_ifs <;> decide

lemma charToDigit_digitChar (d : Nat) (h : d < 10) : charToDigit (digitChar d) = d := by
  interval_cases d <;> decide

lemma isoDigitsAux_lt (fuel : Nat) : ∀ n d, d ∈ isoDigitsAux fuel n → d < 10 := by
  induction fuel with
  | zero => intro n d hd; simp [isoDigitsAux] at hd
  | succ fuel ih =>
    intro n d hd
    by_cases h : n = 0
    · simp [isoDigitsAux, h] at hd
    · simp only [isoDigitsAux, if_neg h, List.mem_cons] at hd
      rcases hd with rfl | hd
      · omega
      · exact ih _ _ hd

lemma fromDigits_isoDigitsAux (fuel : Nat) :
    ∀ n, n ≤ fuel → fromDigits (isoDigitsAux fuel n) = n := by
  induction fuel with
  | zero =>
    intro n hn
    have : n = 0 := by omega
    subst this
    rfl
  | succ fuel ih =>
    intro n hn
    by_cases h : n = 0
    · simp [isoDigitsAux, h, fromDigits]
    · have hdiv : n / 10 ≤ fuel := by
        have : n / 10 < n := Nat.div_lt_self (Nat.pos_of_ne_zero h) (by norm_num)
        omega
      simp only [isoDigitsAux, if_neg h, fromDigits, ih _ hdiv]
      omega

lemma map_charToDigit_digitChar (ds : List Nat) (h : ∀ d ∈ ds, d < 10) :
    (ds.map digitChar).map charToDigit = ds := by
  induction ds with
  | nil => rfl
  | cons d ds ih =>
    simp only [List.map_cons, List.cons.injEq]
    exact ⟨charToDigit_digitChar d (h d (by simp)), ih (fun x hx => h x (by simp [hx]))⟩

lemma isoformat_ne_nil (t : Nat) : isoformat t ≠ [] := by
  unfold isoformat
  split
  · simp
  · rename_i h
    obtain ⟨k, rfl⟩ : ∃ k, t = k + 1 := ⟨t - 1, by omega⟩
    simp [isoDigits, isoDigitsAux]

lemma mem_isoformat_digit (t : Nat) (c : Char) (h : c ∈ isoformat t) :
    isDigitChar c = true := by
  unfold isoformat at h
  split at h
  · simp at h
    subst h
    decide
  · simp only [List.mem_reverse, List.mem_map] at h
    obtain ⟨d, _, rfl⟩ := h
    exact isDigitChar_digitChar d

lemma isDigitChar_not_space (c : Char) (h : isDigitChar c = true) : isPySpace c = false := by
  unfold isDigitChar at h
  rw [decide_eq_true_iff] at h
  unfold isPySpace
  simp only [Bool.or_eq_false_iff, beq_eq_false_iff_ne, ne_eq]
  refine ⟨⟨⟨⟨⟨?_, ?_⟩, ?_⟩, ?_⟩, ?_⟩, ?_⟩ <;> (rintro rfl; exact absurd h (by decide))

lemma isDigitChar_ne_comma (c : Char) (h : isDigitChar c = true) : c ≠ ',' := by
  intro e
  subst e
  exact absurd h (by decide)

lemma isoformat_no_comma (t : Nat) : ',' ∉ isoformat t :=
  fun h => (isDigitChar_ne_comma _ (mem_isoformat_digit t _ h)) rfl

lemma fromisoformat_isoformat (t : Nat) : fromisoformat (isoformat t) = some t := by
  by_cases h : t = 0
  · subst h
    decide
  · have hne := isoformat_ne_nil t
    have hall : (isoformat t).all isDigitChar = true :=
      List.all_eq_true.mpr (fun c hc => mem_isoformat_digit t c hc)
    have hiso : isoformat t = ((isoDigits t).map digitChar).reverse := by
      unfold isoformat
      rw [if_neg h]
    unfold fromisoformat
    rw [if_neg (by simp [hall, List.isEmpty_iff, hne])]
    unfold isoDigits at hiso
    rw [hiso, List.reverse_reverse,
      map_charToDigit_digitChar (isoDigitsAux t t) (fun d hd => isoDigitsAux_lt t t d hd),
      fromDigits_isoDigitsAux t t le_rfl]

/-! ### Operation-level lemmas -/

lemma tryServices_eq_find (ipEnv : PyStr → Option HttpResp) (l : List PyStr) :
    tryServices ipEnv l =
      match l.find? (fun s => reqSucceeds (ipEnv s)) with
      | none => none
      | some s => some (pyStrip (respText (ipEnv s))) := by
  induction l with
  | nil => rfl
  | cons s rest ih =>
    have e : (s :: rest).find? (fun u => reqSucceeds (ipEnv u)) =
        match reqSucceeds (ipEnv s) with
        | true => some s
        | false => rest.find? (fun u => reqSucceeds (ipEnv u)) := rfl
    cases h : ipEnv s with
    | none =>
      have hp : reqSucceeds (ipEnv s) = false := by rw [h]; rfl
      rw [e, hp]
      simpa [tryServices, h] using ih
    | some r =>
      by_cases h2 : r.status = 200
      · have hp : reqSucceeds (ipEnv s) = true := by rw [h]; simp [reqSucceeds, h2]
        rw [e, hp]
        simp [tryServices, h, if_pos h2, respText]
      · have hp : reqSucceeds (ipEnv s) = false := by rw [h]; simp [reqSucceeds, h2]
        rw [e, hp]
        simpa [tryServices, h, if_neg h2] using ih

lemma get_current_ip_eq_find (ipEnv : PyStr → Option HttpResp) :
    get_current_ip ipEnv =
      match ip_services.find? (fun s => reqSucceeds (ipEnv s)) with
      | none => none
      | some s => some (pyStrip (respText (ipEnv s))) :=
  tryServices_eq_find ipEnv ip_services

lemma update_dns_records_list_fail (self : CloudflareDDNS) (env : ProviderEnv) (new_ip : PyStr)
    (h : env.listResp.status ≠ 200) :
    self.update_dns_records env new_ip =
      (.error (.exception (("Failed to get DNS records: ").data ++ env.listResp.text)),
        [.listRecords]) := by
  unfold CloudflareDDNS.update_dns_records
  rw [if_pos h]

lemma update_dns_records_no_match (self : CloudflareDDNS) (env : ProviderEnv) (new_ip : PyStr)
    (h1 : env.listResp.status = 200)
    (h2 : matched_record_ids env.listRecords self.domains = []) :
    self.update_dns_records env new_ip =
      (.error (.attributeError (("domain").data)), [.listRecords]) := by
  unfold CloudflareDDNS.update_dns_records
  rw [if_neg (by simp [h1]), if_pos h2]

lemma update_dns_records_batch_fail (self : CloudflareDDNS) (env : ProviderEnv) (new_ip : PyStr)
    (h1 : env.listResp.status = 200)
    (h2 : matched_record_ids env.listRecords self.domains ≠ [])
    (h3 : env.batchResp.status ≠ 200) :
    self.update_dns_records env new_ip =
      (.error (.exception (("Failed to update DNS records: ").data ++ env.batchResp.text)),
        [.listRecords, .batchUpdate (batch_patches env.listRecords self.domains new_ip)]) := by
  unfold CloudflareDDNS.update_dns_records
  rw [if_neg (by simp [h1]), if_neg h2, if_pos h3]

lemma update_dns_records_success (self : CloudflareDDNS) (env : ProviderEnv) (new_ip : PyStr)
    (h1 : env.listResp.status = 200)
    (h2 : matched_record_ids env.listRecords self.domains ≠ [])
    (h3 : env.batchResp.status = 200) :
    self.update_dns_records env new_ip =
      (.ok true, [.listRecords, .batchUpdate (batch_patches env.listRecords self.domains new_ip)]) := by
  unfold CloudflareDDNS.update_dns_records
  rw [if_neg (by simp [h1]), if_neg h2, if_neg (by simp [h3])]

lemma log_change_no_error (a : PyStr) (b : Option PyStr) (c : Option Int) (d : Nat) :
    (log_change a b c d).filter LogLine.isError = [] := by
  unfold log_change
  cases b with
  | none => rfl
  | some l => split <;> simp [List.filter, LogLine.isError]

lemma run_eq_of_no_ip (self : CloudflareDDNS) (env : RunEnv)
    (hip : get_current_ip env.ipEnv = none ∨ get_current_ip env.ipEnv = some []) :
    self.run env =
      ⟨env.file, [],
        [.error env.now (.exception (("Could not determine current IP address").data))]⟩ := by
  unfold CloudflareDDNS.run
  rcases hip with h | h <;> rw [h]

lemma run_eq_of_parse_error (self : CloudflareDDNS) (env : RunEnv) (c : Char) (cs : PyStr)
    (e : PyErr)
    (hip : get_current_ip env.ipEnv = some (c :: cs))
    (hlast : get_last_known_ip env.file env.now = .error e) :
    self.run env = ⟨env.file, [], [.error env.now e]⟩ := by
  unfold CloudflareDDNS.run
  rw [hip, hlast]

lemma run_eq_compare (self : CloudflareDDNS) (env : RunEnv) (c : Char) (cs : PyStr)
    (last_ip : Option PyStr) (et : Option Int)
    (hip : get_current_ip env.ipEnv = some (c :: cs))
    (hlast : get_last_known_ip env.file env.now = .ok (last_ip, et)) :
    self.run env =
      if last_ip = some (c :: cs) then ⟨env.file, [], []⟩
      else
        match self.update_dns_records env.provider (c :: cs) with
        | (.error e, calls) =>
          ⟨env.file, calls, log_change (c :: cs) last_ip et env.now ++ [.error env.now e]⟩
        | (.ok _, calls) =>
          ⟨some (save_current_ip (c :: cs) env.now), calls,
            log_change (c :: cs) last_ip et env.now⟩ := by
  unfold CloudflareDDNS.run
  rw [hip, hlast]

lemma init_isOk_eq (config : Config) :
    isOkE (CloudflareDDNS.init config) = specValidConfig config := by
  rcases config with ⟨ta, zi, dm⟩
  cases ta <;> cases zi <;> cases dm <;>
    first
      | rfl
      | (unfold CloudflareDDNS.init specValidConfig
         dsimp only
         split_ifs <;> simp_all [isOkE, List.isEmpty_iff])

lemma init_error_iff (config : Config) :
    (∃ e, CloudflareDDNS.init config = .error e) ↔ specValidConfig config = false := by
  have h := init_isOk_eq config
  cases hi : CloudflareDDNS.init config with
  | ok d =>
    rw [hi] at h
    simp only [isOkE] at h
    simp [← h]
  | error e =>
    rw [hi] at h
    simp only [isOkE] at h
    simp [← h]

lemma get_last_known_ip_some (content : PyStr) (now : Nat) :
    get_last_known_ip (some content) now =
      match pySplitComma (pyStrip content) with
      | [last_ip, timestamp] =>
        match fromisoformat timestamp with
        | some t => .ok (some last_ip, some ((now : Int) - (t : Int)))
        | none => .error PyErr.valueError
      | _ => .error PyErr.valueError := rfl

lemma glki_shape0 (content : PyStr) (now : Nat)
    (hs : pySplitComma (pyStrip content) = []) :
    get_last_known_ip (some content) now = .error PyErr.valueError := by
  rw [get_last_known_ip_some, hs]

lemma glki_shape1 (content a : PyStr) (now : Nat)
    (hs : pySplitComma (pyStrip content) = [a]) :
    get_last_known_ip (some content) now = .error PyErr.valueError := by
  rw [get_last_known_ip_some, hs]

lemma glki_shape2 (content a b : PyStr) (now : Nat)
    (hs : pySplitComma (pyStrip content) = [a, b]) :
    get_last_known_ip (some content) now =
      match fromisoformat b with
      | some t => .ok (some a, some ((now : Int) - (t : Int)))
      | none => .error PyErr.valueError := by
  rw [get_last_known_ip_some, hs]

lemma glki_shape3 (content a b x : PyStr) (rest : List PyStr) (now : Nat)
    (hs : pySplitComma (pyStrip content) = a :: b :: x :: rest) :
    get_last_known_ip (some content) now = .error PyErr.valueError := by
  rw [get_last_known_ip_some, hs]

/-! ### Witness fixtures: concrete environments used to instantiate the
claim theorems below. -/

def recA : DNSRecord := ⟨("r1").data, ("A").data, ("example.com").data⟩

def provGood : ProviderEnv := ⟨⟨200, []⟩, [recA], ⟨200, []⟩⟩

def provBatchFail : ProviderEnv := ⟨⟨200, []⟩, [recA], ⟨500, ("boom").data⟩⟩

def selfW : CloudflareDDNS := ⟨("tok").data, ("zid").data, [("example.com").data]⟩

def ipOK : PyStr → Option HttpResp := fun _ => some ⟨200, ("1.2.3.4").data⟩

/-! ### Claim theorems -/

/-- C3: whenever the detected current IP equals the persisted last-known IP,
`run` performs no provider call, prints no log line, and leaves the state file
exactly as it was. -/
theorem run_unchanged_noop (self : CloudflareDDNS) (env : RunEnv) (c : Char) (cs : PyStr)
    (et : Option Int)
    (hip : get_current_ip env.ipEnv = some (c :: cs))
    (hlast : get_last_known_ip env.file env.now = .ok (some (c :: cs), et)) :
    self.run env = ⟨env.file, [], []⟩ := by
  have hr := run_eq_compare self env c cs (some (c :: cs)) et hip hlast
  rw [if_pos rfl] at hr
  exact hr

/-- Witness for C3: with cached state `"1.2.3.4,5"` and every echo service
answering `"1.2.3.4"`, the run is a no-op. -/
theorem run_unchanged_noop_witness :
    selfW.run ⟨ipOK, provGood, some (("1.2.3.4,5").data), 9⟩ =
      ⟨some (("1.2.3.4,5").data), [], []⟩ :=
  run_unchanged_noop selfW ⟨ipOK, provGood, some (("1.2.3.4,5").data), 9⟩ '1'
    ((".2.3.4").data) (some 4) (by decide) (by decide)

/-- C4: construction succeeds exactly on configurations with `api_token`,
`zone_id` and `domains` all present and non-empty, and returns (raises) an
error exactly otherwise.  The constructor's type mentions no network
environment, so no network call can be involved. -/
theorem init_validates_config (config : Config) :
    isOkE (CloudflareDDNS.init config) = specValidConfig config
    ∧ ((∃ e, CloudflareDDNS.init config = .error e) ↔ specValidConfig config = false) :=
  ⟨init_isOk_eq config, init_error_iff config⟩

/-- C5: IP detection returns the stripped body of the first endpoint, in the
fixed order `ip_services`, whose request returns a response with a success
(200) status — per-endpoint exceptions (`none`) and non-success statuses are
swallowed and the next endpoint tried — and returns `none` when every
endpoint fails or errors. -/
theorem get_current_ip_first_success (ipEnv : PyStr → Option HttpResp) :
    get_current_ip ipEnv =
      match ip_services.find? (fun s => reqSucceeds (ipEnv s)) with
      | none => none
      | some s => some (pyStrip (respText (ipEnv s))) :=
  get_current_ip_eq_find ipEnv

/-- C6 (code bug): with a zone listing that contains no A record matching the
configured domains, `update_dns_records` does fail before issuing any batch
write, but the error actually raised is an `AttributeError` for `domain` —
the source says `raise Exception(f"No A record found for {self.domain}")` and
`self.domain` does not exist (the attribute is `domains`) — so the descriptive
misconfiguration message is never produced. -/
theorem update_no_match_raises_attribute_error :
    CloudflareDDNS.update_dns_records ⟨("tok").data, ("zid").data, [("example.com").data]⟩
        ⟨⟨200, []⟩, [⟨("r1").data, ("AAAA").data, ("example.com").data⟩], ⟨200, ("ok").data⟩⟩
        (("9.9.9.9").data) =
      (Except.error (PyErr.attributeError (("domain").data)), [ProviderCall.listRecords]) := by
  decide

/-- C1: on a changed (or absent) persisted IP, with a successful zone listing
that yields at least one matched A record, the provider trace is exactly one
listing call followed by exactly one batch write whose patches set `content`
to the new IP for every matched record id; the state file is rewritten to the
new IP with the current timestamp exactly when the batch call returns 200,
and is untouched when it does not. -/
theorem run_change_single_batch_write (self : CloudflareDDNS) (env : RunEnv)
    (c : Char) (cs : PyStr) (last_ip : Option PyStr) (et : Option Int)
    (hip : get_current_ip env.ipEnv = some (c :: cs))
    (hlast : get_last_known_ip env.file env.now = .ok (last_ip, et))
    (hdiff : last_ip ≠ some (c :: cs))
    (hlist : env.provider.listResp.status = 200)
    (hmatch : matched_record_ids env.provider.listRecords self.domains ≠ []) :
    (self.run env).calls =
      [ProviderCall.listRecords,
        ProviderCall.batchUpdate (batch_patches env.provider.listRecords self.domains (c :: cs))]
    ∧ (env.provider.batchResp.status = 200 →
        (self.run env).file = some (save_current_ip (c :: cs) env.now))
    ∧ (env.provider.batchResp.status ≠ 200 → (self.run env).file = env.file) := by
  have hr := run_eq_compare self env c cs last_ip et hip hlast
  rw [if_neg hdiff] at hr
  by_cases hb : env.provider.batchResp.status = 200
  · rw [update_dns_records_success self env.provider (c :: cs) hlist hmatch hb] at hr
    have hr2 : self.run env =
        ⟨some (save_current_ip (c :: cs) env.now),
          [.listRecords, .batchUpdate (batch_patches env.provider.listRecords self.domains (c :: cs))],
          log_change (c :: cs) last_ip et env.now⟩ := by rw [hr]
    rw [hr2]
    exact ⟨rfl, fun _ => rfl, fun h => absurd hb h⟩
  · rw [update_dns_records_batch_fail self env.provider (c :: cs) hlist hmatch hb] at hr
    have hr2 : self.run env =
        ⟨env.file,
          [.listRecords, .batchUpdate (batch_patches env.provider.listRecords self.domains (c :: cs))],
          log_change (c :: cs) last_ip et env.now ++
            [.error env.now (.exception (("Failed to update DNS records: ").data ++
              env.provider.batchResp.text))]⟩ := by rw [hr]
    rw [hr2]
    exact ⟨rfl, fun h => absurd h hb, fun _ => rfl⟩

/-- Witness for C1: first run (no state file), one matched record, everything
succeeds; exactly one batch write with the new IP, and the state file is
written. -/
theorem run_change_single_batch_write_witness :
    get_current_ip ipOK = some ('1' :: ((".2.3.4").data))
    ∧ (selfW.run ⟨ipOK, provGood, none, 7⟩).calls =
        [ProviderCall.listRecords,
          ProviderCall.batchUpdate
            (batch_patches provGood.listRecords selfW.domains ('1' :: ((".2.3.4").data)))]
    ∧ (selfW.run ⟨ipOK, provGood, none, 7⟩).file =
        some (save_current_ip ('1' :: ((".2.3.4").data)) 7) := by
  have h := run_change_single_batch_write selfW ⟨ipOK, provGood, none, 7⟩ '1'
      ((".2.3.4").data) none none (by decide) (by decide) (by decide) (by decide) (by decide)
  exact ⟨by decide, h.1, h.2.1 (by decide)⟩

/-- C2: when the provider read fails, or the write fails after a successful
read with matches, the run logs an error and the state file keeps its prior
value (including staying absent), so the next run will see the same persisted
IP and retry the same transition. -/
theorem run_provider_failure_preserves_state (self : CloudflareDDNS) (env : RunEnv)
    (c : Char) (cs : PyStr) (last_ip : Option PyStr) (et : Option Int)
    (hip : get_current_ip env.ipEnv = some (c :: cs))
    (hlast : get_last_known_ip env.file env.now = .ok (last_ip, et))
    (hdiff : last_ip ≠ some (c :: cs))
    (hfail : env.provider.listResp.status ≠ 200 ∨
      (env.provider.listResp.status = 200 ∧
        matched_record_ids env.provider.listRecords self.domains ≠ [] ∧
        env.provider.batchResp.status ≠ 200)) :
    (self.run env).file = env.file
    ∧ ∃ e, LogLine.error env.now e ∈ (self.run env).logs := by
  have hr := run_eq_compare self env c cs last_ip et hip hlast
  rw [if_neg hdiff] at hr
  rcases hfail with h | ⟨hl, hm, hb⟩
  · rw [update_dns_records_list_fail self env.provider (c :: cs) h] at hr
    have hr2 : self.run env =
        ⟨env.file, [.listRecords],
          log_change (c :: cs) last_ip et env.now ++
            [.error env.now (.exception (("Failed to get DNS records: ").data ++
              env.provider.listResp.text))]⟩ := by rw [hr]
    rw [hr2]
    exact ⟨rfl,
      ⟨PyErr.exception ((("Failed to get DNS records: ").data ++ env.provider.listResp.text)),
        by simp⟩⟩
  · rw [update_dns_records_batch_fail self env.provider (c :: cs) hl hm hb] at hr
    have hr2 : self.run env =
        ⟨env.file,
          [.listRecords, .batchUpdate (batch_patches env.provider.listRecords self.domains (c :: cs))],
          log_change (c :: cs) last_ip et env.now ++
            [.error env.now (.exception (("Failed to update DNS records: ").data ++
              env.provider.batchResp.text))]⟩ := by rw [hr]
    rw [hr2]
    exact ⟨rfl,
      ⟨PyErr.exception ((("Failed to update DNS records: ").data ++ env.provider.batchResp.text)),
        by simp⟩⟩

/-- Witness for C2: first run, matched record, batch write answers 500; the
state file stays absent and an error is logged. -/
theorem run_provider_failure_preserves_state_witness :
    (selfW.run ⟨ipOK, provBatchFail, none, 7⟩).file = none
    ∧ ∃ e, LogLine.error 7 e ∈ (selfW.run ⟨ipOK, provBatchFail, none, 7⟩).logs :=
  run_provider_failure_preserves_state selfW ⟨ipOK, provBatchFail, none, 7⟩ '1'
    ((".2.3.4").data) none none (by decide) (by decide) (by decide)
    (Or.inr ⟨by decide, by decide, by decide⟩)

/-- C7 counterexample: for the comma-free string `" 1"` (leading space) the
round trip does not return the string written — `strip()` on load removes the
leading space — so the claim does not hold of every comma-free IP string. -/
theorem save_load_roundtrip_fails_leading_space :
    get_last_known_ip (some (save_current_ip ([' ', '1']) 5)) 5 ≠
      Except.ok (some [' ', '1'], some 0) := by
  decide

/-- C7 (amended): persisting IP `X` and immediately loading it back yields
`(X, 0)` for every comma-free IP string `X` that does not start with a
whitespace character (the counterexample forces exactly that extra
condition). -/
theorem save_then_load_roundtrip (X : PyStr) (t : Nat)
    (hc : ',' ∉ X)
    (hs : X.head?.all (fun c => !isPySpace c) = true) :
    get_last_known_ip (some (save_current_ip X t)) t = .ok (some X, some 0) := by
  have hstrip : pyStrip (X ++ ',' :: isoformat t) = X ++ ',' :: isoformat t := by
    apply pyStrip_eq_self
    · cases X with
      | nil =>
        simp only [List.nil_append, List.head?_cons]
        decide
      | cons c xs => simpa using hs
    · have hne : (isoformat t).reverse ≠ [] := by simp [isoformat_ne_nil t]
      cases hrev : (isoformat t).reverse with
      | nil => exact absurd hrev hne
      | cons d ds =>
        have hd : d ∈ isoformat t := by
          rw [← List.mem_reverse, hrev]
          simp
        have hdig := mem_isoformat_digit t d hd
        have hrw : (X ++ ',' :: isoformat t).reverse = d :: (ds ++ ',' :: X.reverse) := by
          simp [List.reverse_append, hrev]
        rw [hrw]
        simp [isDigitChar_not_space d hdig]
  have e1 : pySplitComma (pyStrip (save_current_ip X t)) = [X, isoformat t] := by
    unfold save_current_ip
    rw [hstrip, pySplitComma_append X (isoformat t) hc,
      pySplitComma_no_comma _ (isoformat_no_comma t)]
  rw [get_last_known_ip_some, e1]
  simp [fromisoformat_isoformat t]

/-- Witness for C7 (amended): round trip at `"1.2.3.4"`, time 5. -/
theorem save_then_load_roundtrip_witness :
    ',' ∉ (("1.2.3.4").data)
    ∧ get_last_known_ip (some (save_current_ip (("1.2.3.4").data) 5)) 5 =
        Except.ok (some (("1.2.3.4").data), some 0) :=
  ⟨by decide, save_then_load_roundtrip (("1.2.3.4").data) 5 (by decide) (by decide)⟩

/-- C8: loading returns `(absence, absence)` exactly when the state file does
not exist, and a present-but-malformed file (wrong field count after the comma
split, or an unparsable timestamp) propagates `ValueError` instead of being
defaulted to the no-prior-state result. -/
theorem get_last_known_ip_absent_iff (file : Option PyStr) (now : Nat) :
    (get_last_known_ip file now = .ok (none, none) ↔ file = none)
    ∧ (∀ content, file = some content → malformedContent content = true →
        get_last_known_ip file now = .error PyErr.valueError) := by
  constructor
  · constructor
    · intro h
      cases file with
      | none => rfl
      | some content =>
        exfalso
        rcases hs : pySplitComma (pyStrip content) with _ | ⟨a, _ | ⟨b, _ | ⟨x, rest⟩⟩⟩
        · rw [glki_shape0 content now hs] at h
          simp at h
        · rw [glki_shape1 content a now hs] at h
          simp at h
        · rw [glki_shape2 content a b now hs] at h
          cases hf : fromisoformat b <;> rw [hf] at h <;> simp at h
        · rw [glki_shape3 content a b x rest now hs] at h
          simp at h
    · rintro rfl
      rfl
  · rintro content rfl hm
    unfold malformedContent at hm
    rcases hs : pySplitComma (pyStrip content) with _ | ⟨a, _ | ⟨b, _ | ⟨x, rest⟩⟩⟩
    · exact glki_shape0 content now hs
    · exact glki_shape1 content a now hs
    · rw [hs] at hm
      have hm2 : fromisoformat b = none := by
        rw [← Option.isNone_iff_eq_none]
        simpa using hm
      rw [glki_shape2 content a b now hs, hm2]
    · exact glki_shape3 content a b x rest now hs

/-- Witness for C8: a present one-field file (`"garbage"`, no comma) raises
`ValueError` rather than defaulting to the no-prior-state result. -/
theorem get_last_known_ip_absent_iff_witness :
    get_last_known_ip (some (("garbage").data)) 3 = Except.error PyErr.valueError :=
  (get_last_known_ip_absent_iff (some (("garbage").data)) 3).2 (("garbage").data) rfl (by decide)

/-- C9 counterexample: an error case the entrypoint can reach — a config with
`api_token` missing — is raised in the constructor, outside `run`'s
`try`/`except`, so it propagates out of `mainEntry` uncaught (the Python
process then exits with a failure status, not success). -/
theorem main_config_error_escapes :
    mainEntry ⟨none, some (("z").data), some [("d").data]⟩
        ⟨fun _ => none, ⟨⟨200, []⟩, [], ⟨200, []⟩⟩, none, 0⟩ =
      Except.error (PyErr.keyError (("api_token").data)) := by
  decide

/-- C9 (amended): every error raised within `run` is caught exactly once at
`run`'s top level and turned into a single ERROR log line stamped with the
current time — a run prints at most one ERROR line and always returns, so
`mainEntry` succeeds whenever construction succeeds; however, an error raised
during construction in the entrypoint is not caught and propagates out of
`mainEntry`, so the process does not exit with success in that reachable error
case. -/
theorem run_catches_errors_once (self : CloudflareDDNS) (env : RunEnv) (config : Config) :
    ((self.run env).logs.filter LogLine.isError = []
      ∨ ∃ e, (self.run env).logs.filter LogLine.isError = [LogLine.error env.now e])
    ∧ ((∃ d, CloudflareDDNS.init config = .ok d) → ∃ r, mainEntry config env = .ok r)
    ∧ ((∃ e, CloudflareDDNS.init config = .error e) → ∃ e, mainEntry config env = .error e) := by
  refine ⟨?_, ?_, ?_⟩
  · cases hip : get_current_ip env.ipEnv with
    | none =>
      rw [run_eq_of_no_ip self env (Or.inl hip)]
      exact Or.inr ⟨_, rfl⟩
    | some ip =>
      cases ip with
      | nil =>
        rw [run_eq_of_no_ip self env (Or.inr hip)]
        exact Or.inr ⟨_, rfl⟩
      | cons c cs =>
        cases hlast : get_last_known_ip env.file env.now with
        | error e =>
          rw [run_eq_of_parse_error self env c cs e hip hlast]
          exact Or.inr ⟨e, rfl⟩
        | ok p =>
          obtain ⟨last_ip, et⟩ := p
          have hr := run_eq_compare self env c cs last_ip et hip hlast
          by_cases heq : last_ip = some (c :: cs)
          · rw [if_pos heq] at hr
            rw [hr]
            exact Or.inl rfl
          · rw [if_neg heq] at hr
            cases hupd : self.update_dns_records env.provider (c :: cs) with
            | mk r calls =>
              cases r with
              | error e =>
                rw [hupd] at hr
                have hr2 : self.run env = ⟨env.file, calls,
                    log_change (c :: cs) last_ip et env.now ++ [.error env.now e]⟩ := by
                  rw [hr]
                rw [hr2]
                refine Or.inr ⟨e, ?_⟩
                simp [List.filter_append, log_change_no_error, LogLine.isError]
              | ok b =>
                rw [hupd] at hr
                have hr2 : self.run env = ⟨some (save_current_ip (c :: cs) env.now), calls,
                    log_change (c :: cs) last_ip et env.now⟩ := by
                  rw [hr]
                rw [hr2]
                exact Or.inl (log_change_no_error _ _ _ _)
  · rintro ⟨d, hd⟩
    exact ⟨d.run env, by unfold mainEntry; rw [hd]⟩
  · rintro ⟨e, he⟩
    exact ⟨e, by unfold mainEntry; rw [he]⟩

/-- Witness for C9 (amended): a valid config constructs, so the entrypoint
returns normally. -/
theorem run_catches_errors_once_witness :
    ∃ r, mainEntry ⟨some (("tok").data), some (("zid").data), some [("example.com").data]⟩
        ⟨fun _ => none, ⟨⟨200, []⟩, [], ⟨200, []⟩⟩, none, 0⟩ = Except.ok r :=
  (run_catches_errors_once selfW ⟨fun _ => none, ⟨⟨200, []⟩, [], ⟨200, []⟩⟩, none, 0⟩
      ⟨some (("tok").data), some (("zid").data), some [("example.com").data]⟩).2.1
    ⟨⟨("tok").data, ("zid").data, [("example.com").data]⟩, by decide⟩

/-- C10: when the first endpoint accepted by detection (the first whose
request succeeds with status 200) has a body that strips to the empty string,
detection returns the empty string, and `run` treats that exactly like total
detection failure: it logs the could-not-determine-IP error, issues no
provider call and writes no state — even though a later endpoint may have a
non-empty successful body. -/
theorem run_blank_body_is_detection_failure (self : CloudflareDDNS) (env : RunEnv) (s : PyStr)
    (hfind : ip_services.find? (fun u => reqSucceeds (env.ipEnv u)) = some s)
    (hbody : pyStrip (respText (env.ipEnv s)) = []) :
    get_current_ip env.ipEnv = some []
    ∧ self.run env =
        ⟨env.file, [],
          [.error env.now (.exception (("Could not determine current IP address").data))]⟩ := by
  have hip : get_current_ip env.ipEnv = some [] := by
    rw [get_current_ip_eq_find, hfind]
    simp [hbody]
  exact ⟨hip, run_eq_of_no_ip self env (Or.inr hip)⟩

def envBlank : RunEnv :=
  ⟨fun u => if u = ("https://ifconfig.me/ip").data then some ⟨200, ("   ").data⟩
    else some ⟨200, ("7.7.7.7").data⟩,
   ⟨⟨200, []⟩, [], ⟨200, []⟩⟩, some (("old").data), 3⟩

/-- Witness for C10: the first endpoint answers 200 with a whitespace-only
body while the second endpoint would have answered 200 with `"7.7.7.7"`; the
run still reports the detection error, makes no provider call and keeps the
old state file. -/
theorem run_blank_body_witness :
    ip_services.find? (fun u => reqSucceeds (envBlank.ipEnv u)) =
        some (("https://ifconfig.me/ip").data)
    ∧ pyStrip (respText (envBlank.ipEnv (("https://ifconfig.me/ip").data))) = []
    ∧ reqSucceeds (envBlank.ipEnv (("https://api.ipify.org").data)) = true
    ∧ pyStrip (respText (envBlank.ipEnv (("https://api.ipify.org").data))) ≠ []
    ∧ CloudflareDDNS.run selfW envBlank =
        ⟨some (("old").data), [],
          [.error 3 (.exception (("Could not determine current IP address").data))]⟩ :=
  ⟨by decide, by decide, by decide, by decide,
    (run_blank_body_is_detection_failure selfW envBlank
      (("https://ifconfig.me/ip").data) (by decide) (by decide)).2⟩
